import Mathlib

/-!
Shallow embedding of the message-processing pipeline of src/smtp2http.py
(repository Helmi/python-smtp2http).

The embedding covers `CustomMessageHandler.async_handle_message` (lines
112 to 149) and `CustomMessageHandler.forward_to_webhook` (lines 151 to
166), together with the module-level configuration values
`EMAIL_ENDPOINTS` and `ALLOWED_SENDERS`.

External collaborators are modelled as explicit parameters:
the byte-level charset decoder (Python `bytes.decode`) is a parameter of
type `CharsetDec`, and the HTTP client (`requests.post`) is a parameter
of type `HttpOracle`.  The two log files are modelled as lists of the
exact strings the code writes to them, and the outbound HTTP requests as
a list of `Post` records.  Failures that the Python code does not catch
(TypeError, AttributeError, UnicodeDecodeError) are modelled with
`Except PyError`.
-/

/-- Python exceptions that can escape the decoding steps of the pipeline. -/
inductive PyError where
  | typeError
  | attributeError
  | unicodeDecodeError (charset : String)
  deriving Repr, DecidableEq

/-- External charset decoder, modelling Python `bytes.decode(charset)`:
given a charset name and the raw payload bytes it either produces a
string or raises (for instance `UnicodeDecodeError`). -/
abbrev CharsetDec := String → List Nat → Except PyError String

/-- Outcome of one call to `requests.post`: either a response carrying a
status code, or a `requests.RequestException` carrying a message. -/
inductive HttpResult where
  | success (status : Nat)
  | failure (msg : String)
  deriving Repr, DecidableEq

/-- External HTTP client, modelling `requests.post(endpoint, json=payload)`. -/
abbrev HttpOracle := String → List (String × String) → HttpResult

/-- Models Python `str.lower` on one character (ASCII letter range,
which is the range relevant for the addresses handled by the code). -/
def pyCharLower (c : Char) : Char :=
  if h : 65 ≤ c.toNat ∧ c.toNat ≤ 90 then
    Char.ofNatAux (c.toNat + 32) (Or.inl (by omega))
  else c

/-- Models Python `str.lower`, used as `.lower()` at lines 140, 146 and
159 of src/smtp2http.py. -/
def pyLower (s : String) : String := ⟨s.data.map pyCharLower⟩

/-- Models Python `str(x)` applied to an optional header value: the
header string itself when present, the text `None` when absent, exactly
as an f-string renders it. -/
def pyStrOpt : Option String → String
  | some s => s
  | none => "None"

/-- Chunk returned by `email.header.decode_header`: either a `str`
chunk (the whole header, when it holds no RFC 2047 encoded words) or a
`bytes` chunk with an optional charset. -/
inductive HeaderSeg where
  | strSeg (s : String)
  | bytesSeg (b : List Nat) (charset : Option String)
  deriving Repr, DecidableEq

/-- Raw subject header as far as `email.header.decode_header` is
concerned: either it holds no RFC 2047 encoded words at all (`plain`),
or it does, in which case `decode_header` hands every chunk back as
bytes with its declared charset (`encoded`). -/
inductive RawSubject where
  | plain (s : String)
  | encoded (segs : List (List Nat × Option String))
  deriving Repr, DecidableEq

/-- Models the external library function `email.header.decode_header`
as called at line 124: a header without encoded words is returned
unchanged as a single `str` chunk paired with charset `None`; a header
with encoded words is returned as `bytes` chunks with their charsets. -/
def decode_header : RawSubject → List HeaderSeg
  | .plain s => [.strSeg s]
  | .encoded segs => segs.map (fun t => .bytesSeg t.1 t.2)

/-- Models the expression `str(t[0], t[1] or 'utf-8')` at line 124:
on a `bytes` chunk this decodes with the declared charset (defaulting
to UTF-8), while on a `str` chunk the two-argument `str` constructor
raises `TypeError: decoding str is not supported`. -/
def strOfSeg (dec : CharsetDec) : HeaderSeg → Except PyError String
  | .strSeg _ => .error .typeError
  | .bytesSeg b cs => dec (cs.getD "utf-8") b

/-- Models line 124: `''.join([str(t[0], t[1] or 'utf-8') for t in
decode_header(subject)])`, with any exception propagating. -/
def decoded_subject_of (dec : CharsetDec) (subject : RawSubject) : Except PyError String :=
  match (decode_header subject).mapM (strOfSeg dec) with
  | .ok ss => .ok (String.join ss)
  | .error e => .error e

/-- One leaf body part of a multipart message: declared content type,
optional declared charset, and the raw payload bytes yielded by
`get_payload(decode=True)`. -/
structure BodyPart where
  ctype : String
  charset : Option String
  payload : List Nat
  deriving Repr, DecidableEq

/-- Body of an inbound message: a single payload (`is_multipart()`
false) or an ordered list of parts (`is_multipart()` true). -/
inductive Body where
  | single (payload : List Nat)
  | multi (parts : List BodyPart)
  deriving Repr, DecidableEq

/-- Shape of `message['to']` at line 121: a single string, a list of
strings (the shape the guard at line 122 tests for), or Python `None`
when the message carries no `To` header. -/
inductive ToField where
  | str (s : String)
  | list (l : List String)
  | absent
  deriving Repr, DecidableEq

/-- Inbound message as read by `async_handle_message`: the `From`
header (absent headers read as `None`), the `To` field, the raw subject
header, the declared content type and charset of the message itself,
and the body. -/
structure Msg where
  mailfrom : Option String
  toHeader : ToField
  subject : Option RawSubject
  ctype : String
  charset : Option String
  body : Body
  deriving Repr, DecidableEq

/-- Module-level configuration loaded from `email_config.json` (lines
86 to 102): the ordered recipient-to-URL mapping and the allow-list. -/
structure Config where
  EMAIL_ENDPOINTS : List (String × String)
  ALLOWED_SENDERS : List String
  deriving Repr, DecidableEq

/-- Models `recipient.lower() in EMAIL_ENDPOINTS` (line 146) and
`EMAIL_ENDPOINTS.get(recipient.lower())` membership: Python `in` on a
dict compares the key against the literal stored keys. -/
def dictContains (d : List (String × String)) (k : String) : Bool :=
  d.any (fun p => p.1 == k)

/-- Models `EMAIL_ENDPOINTS.get(k)` (line 159): the value stored under
the literal key `k`, or `None`. -/
def dictGet (d : List (String × String)) (k : String) : Option String :=
  (d.find? (fun p => p.1 == k)).map (fun p => p.2)

/-- Models line 122: `rcpttos = [rcpttos] if isinstance(rcpttos, str)
else rcpttos`.  A single string is wrapped in a list; a list passes
through; the `None` of a missing `To` header also passes through
unchanged, modelled as `none`. -/
def normalizeTo : ToField → Option (List String)
  | .str s => some [s]
  | .list l => some l
  | .absent => none

/-- Models lines 123 to 124: the subject header defaults to the literal
`No subject` when absent, then is decoded chunk by chunk. -/
def decoded_subject (dec : CharsetDec) (m : Msg) : Except PyError String :=
  decoded_subject_of dec (m.subject.getD (.plain "No subject"))

/-- One item yielded by `message.walk()` (line 130): its declared
content type, declared charset, and what `get_payload(decode=True)`
returns on it (`none` models Python `None`, returned on a multipart
container). -/
structure WalkItem where
  ctype : String
  charset : Option String
  payload : Option (List Nat)
  deriving Repr, DecidableEq

/-- Models `message.walk()` on a multipart message: the walk yields the
message object itself first, then its parts in original order. -/
def msg_walk (m : Msg) (parts : List BodyPart) : List WalkItem :=
  ⟨m.ctype, m.charset, none⟩ :: parts.map (fun p => ⟨p.ctype, p.charset, some p.payload⟩)

/-- Models the test `content_type in ["text/plain", "text/html"]` at
line 132. -/
def isTextItem (ct : String) : Bool := ct == "text/plain" || ct == "text/html"

/-- Models lines 126 to 137: `content` starts as the empty string; on a
multipart message the walk is scanned and the first item whose declared
type is text/plain or text/html is decoded with its declared charset
(default UTF-8) and the loop breaks; on a non-multipart message the
single payload is decoded the same way.  Calling `.decode` on the
`None` payload of a container item raises `AttributeError`. -/
def extract_content (dec : CharsetDec) (m : Msg) : Except PyError String :=
  match m.body with
  | .multi parts =>
    match (msg_walk m parts).find? (fun w => isTextItem w.ctype) with
    | some w =>
      match w.payload with
      | some b => dec (w.charset.getD "utf-8") b
      | none => .error .attributeError
    | none => .ok ""
  | .single b => dec (m.charset.getD "utf-8") b

/-- Models lines 139 to 140: the message is known when some recipient,
lower-cased, equals some mapping key, lower-cased (the generator lowers
the keys, so this comparison is case-insensitive on both sides). -/
def is_known_recipient (eps : List (String × String)) (rcpttos : List String) : Bool :=
  rcpttos.any (fun r => eps.any (fun p => pyLower p.1 == pyLower r))

/-- Models line 141: the log entry written for the message. -/
def log_entry_of (mailfrom : Option String) (rcpttos : List String)
    (subj content : String) : String :=
  "From: " ++ pyStrOpt mailfrom ++ ", To: " ++ String.intercalate ", " rcpttos ++
    ", Subject: " ++ subj ++ ", Size: " ++ toString content.length ++ " bytes"

/-- Models lines 114 to 117: `mailfrom not in ALLOWED_SENDERS`, negated.
The comparison is plain string equality against each allow-list entry;
a missing `From` header (Python `None`) is never a member. -/
def is_authorized (cfg : Config) (mailfrom : Option String) : Bool :=
  match mailfrom with
  | some s => cfg.ALLOWED_SENDERS.contains s
  | none => false

/-- Models line 118: the line written to the unknown log for an
unauthorized sender. -/
def rejection_entry (mailfrom : Option String) : String :=
  "Rejected email from unauthorized sender: " ++ pyStrOpt mailfrom

/-- One outbound HTTP request: target URL and JSON payload, the payload
being the ordered field list built at lines 153 to 157. -/
structure Post where
  url : String
  payload : List (String × String)
  deriving Repr, DecidableEq

/-- Observable outcome of processing one message: the lines appended to
known_emails.log, the lines appended to unknown_emails.log, and the
outbound HTTP requests issued, each in order. -/
structure Output where
  known : List String
  unknown : List String
  posts : List Post
  deriving Repr, DecidableEq

/-- Models lines 153 to 157: the JSON payload with exactly the fields
`from`, `subject` and `content`, where `from` is the recipient. -/
def forward_payload (recipient subj content : String) : List (String × String) :=
  [("from", recipient), ("subject", subj), ("content", content)]

/-- Models `forward_to_webhook` (lines 151 to 166): resolve the
endpoint as `EMAIL_ENDPOINTS.get(recipient.lower())`; when the result
is `None` or falsy (the empty string) do nothing; otherwise issue the
POST once, and log either the status code or, when the client raises
`requests.RequestException`, the error line — the exception is caught
and does not propagate.  Returns the lines appended to the known log
and the requests issued. -/
def forward_to_webhook (eps : List (String × String)) (http : HttpOracle)
    (recipient subj content : String) : List String × List Post :=
  let payload := forward_payload recipient subj content
  match dictGet eps (pyLower recipient) with
  | some endpoint =>
    if endpoint == "" then ([], [])
    else
      match http endpoint payload with
      | .success code =>
        (["Forwarded to " ++ endpoint ++ ": " ++ toString code], [⟨endpoint, payload⟩])
      | .failure e =>
        (["Error sending to " ++ endpoint ++ ": " ++ e], [⟨endpoint, payload⟩])
  | none => ([], [])

/-- Models the loop at lines 145 to 147: each recipient whose lowered
address is a literal mapping key is forwarded in order, sequentially;
the outputs of the individual forward attempts are concatenated. -/
def forward_loop (eps : List (String × String)) (http : HttpOracle)
    (subj content : String) : List String → List String × List Post
  | [] => ([], [])
  | r :: rs =>
    let head := if dictContains eps (pyLower r) then
        forward_to_webhook eps http r subj content
      else ([], [])
    let tail := forward_loop eps http subj content rs
    (head.1 ++ tail.1, head.2 ++ tail.2)

/-- Models `async_handle_message` (lines 112 to 149): reject and log
unauthorized senders first; otherwise decode the subject and extract the
content (either step can raise, and no handler catches it), then use the
normalized recipients: when the `To` header is absent, line 122 leaves
`rcpttos` as `None` and the iteration `for recipient in rcpttos` inside
the `any` at line 139 raises `TypeError`; otherwise classify the message
and either log it as known and run the forwarding loop, or log it as
unknown.  The failure cases follow the source evaluation order: subject
first (line 124), then content (lines 127 to 137), then the recipient
iteration (line 139). -/
def async_handle_message (cfg : Config) (dec : CharsetDec) (http : HttpOracle)
    (m : Msg) : Except PyError Output :=
  let mailfrom := m.mailfrom
  if is_authorized cfg mailfrom = false then
    .ok ⟨[], [rejection_entry mailfrom], []⟩
  else
    match decoded_subject dec m with
    | .error e => .error e
    | .ok subj =>
      match extract_content dec m with
      | .error e => .error e
      | .ok content =>
        match normalizeTo m.toHeader with
        | none => .error .typeError
        | some rcpttos =>
          let entry := log_entry_of mailfrom rcpttos subj content
          if is_known_recipient cfg.EMAIL_ENDPOINTS rcpttos then
            let fwd := forward_loop cfg.EMAIL_ENDPOINTS http subj content rcpttos
            .ok ⟨entry :: fwd.1, [], fwd.2⟩
          else
            .ok ⟨[], [entry], []⟩

/-- True exactly when the computation raised. -/
def isErr {α : Type} : Except PyError α → Bool
  | .error _ => true
  | .ok _ => false

/-- Concrete charset decoder usable in witnesses: decodes each byte as
the character with that code point. -/
def dec0 : CharsetDec := fun _ b => .ok (String.mk (b.map Char.ofNat))

/-- Concrete HTTP client that always answers with status 200. -/
def http200 : HttpOracle := fun _ _ => .success 200

/-- Concrete HTTP client that always raises a transport error. -/
def httpFail : HttpOracle := fun _ _ => .failure "connection refused"

/-! ### Helper lemmas -/

theorem toNat_pyCharLower (c : Char) :
    (pyCharLower c).toNat = if 65 ≤ c.toNat ∧ c.toNat ≤ 90 then c.toNat + 32 else c.toNat := by
  unfold pyCharLower
  split
  · simp [Char.ofNatAux, Char.toNat, UInt32.toNat]
  · simp [*]

theorem pyCharLower_eq_self (d : Char) (hd : ¬(65 ≤ d.toNat ∧ d.toNat ≤ 90)) :
    pyCharLower d = d := by
  unfold pyCharLower
  rw [dif_neg hd]

theorem pyCharLower_idem (c : Char) : pyCharLower (pyCharLower c) = pyCharLower c := by
  apply pyCharLower_eq_self
  have h := toNat_pyCharLower c
  by_cases hc : 65 ≤ c.toNat ∧ c.toNat ≤ 90
  · rw [if_pos hc] at h
    omega
  · rw [if_neg hc] at h
    omega

theorem pyLower_idem (s : String) : pyLower (pyLower s) = pyLower s := by
  unfold pyLower
  apply congrArg String.mk
  simp [List.map_map, Function.comp, pyCharLower_idem]

theorem dictGet_some (d : List (String × String)) (k v : String)
    (h : dictGet d k = some v) : ∃ p ∈ d, p.1 = k ∧ p.2 = v := by
  unfold dictGet at h
  cases hf : d.find? (fun p => p.1 == k) with
  | none => rw [hf] at h; simp at h
  | some p =>
    rw [hf] at h
    simp at h
    refine ⟨p, List.mem_of_find?_eq_some hf, ?_, h⟩
    have := List.find?_some hf
    exact eq_of_beq this

theorem dictGet_some_contains (d : List (String × String)) (k v : String)
    (h : dictGet d k = some v) : dictContains d k = true := by
  obtain ⟨p, hp, hk, _⟩ := dictGet_some d k v h
  unfold dictContains
  rw [List.any_eq_true]
  exact ⟨p, hp, by rw [hk]; exact beq_self_eq_true k⟩

theorem is_known_of_dictGet (eps : List (String × String)) (r url : String)
    (rcpttos : List String) (hr : r ∈ rcpttos)
    (hget : dictGet eps (pyLower r) = some url) :
    is_known_recipient eps rcpttos = true := by
  obtain ⟨p, hp, hk, _⟩ := dictGet_some eps (pyLower r) url hget
  unfold is_known_recipient
  rw [List.any_eq_true]
  refine ⟨r, hr, ?_⟩
  rw [List.any_eq_true]
  refine ⟨p, hp, ?_⟩
  rw [hk, pyLower_idem]
  exact beq_self_eq_true _

/-! ### Claim C5: unauthorized senders -/

/-- C5: for every inbound message whose sender is not in the allow-list,
processing stops at the authorization filter: no HTTP call is issued, no
known-log line is written, and exactly one unknown-log line is written,
namely the rejection line whose text carries the reason
`unauthorized sender`. -/
theorem unauthorized_sender_rejected (cfg : Config) (dec : CharsetDec)
    (http : HttpOracle) (m : Msg) (h : is_authorized cfg m.mailfrom = false) :
    async_handle_message cfg dec http m = .ok ⟨[], [rejection_entry m.mailfrom], []⟩ := by
  unfold async_handle_message
  simp [h]

def cfg5 : Config :=
  ⟨[("known@example.com", "https://example.com/webhook")], ["sender@example.com"]⟩

def msg5 : Msg :=
  ⟨some "evil@x.com", .str "known@example.com", some (.encoded [([104, 105], none)]),
    "text/plain", none, .single [104, 105]⟩

/-- Witness for C5 at a concrete unconfigured sender. -/
theorem unauthorized_sender_rejected_witness :
    async_handle_message cfg5 dec0 http200 msg5 =
      .ok ⟨[], [rejection_entry msg5.mailfrom], []⟩ :=
  unauthorized_sender_rejected cfg5 dec0 http200 msg5 (by decide)

/-! ### Claim C9: sender authorization is exact and case-sensitive -/

/-- C9: sender authorization compares the literal `From` string against
the allow-list entries with plain string equality — no lower-casing, no
stripping of display-name decoration.  Whenever the `From` value differs
from every entry in any character the message is rejected as an
unauthorized sender. -/
theorem sender_check_case_sensitive (cfg : Config) (dec : CharsetDec)
    (http : HttpOracle) (m : Msg) (s : String) (hf : m.mailfrom = some s)
    (hs : cfg.ALLOWED_SENDERS.contains s = false) :
    is_authorized cfg (some s) = cfg.ALLOWED_SENDERS.contains s ∧
    async_handle_message cfg dec http m = .ok ⟨[], [rejection_entry (some s)], []⟩ := by
  have hauth : is_authorized cfg (some s) = false := by
    simpa [is_authorized] using hs
  refine ⟨rfl, ?_⟩
  unfold async_handle_message
  simp [hf, hauth]

def cfg9 : Config :=
  ⟨[("known@example.com", "https://example.com/webhook")], ["alice@example.com"]⟩

def msg9 : Msg :=
  ⟨some "Alice@example.com", .str "known@example.com", some (.encoded [([104, 105], none)]),
    "text/plain", none, .single [104, 105]⟩

/-- Witness for C9: the sender differs from the allow-list entry only in
letter case (their lower-casings agree), yet the message is rejected. -/
theorem sender_check_case_sensitive_witness :
    pyLower "Alice@example.com" = pyLower "alice@example.com" ∧
    async_handle_message cfg9 dec0 http200 msg9 =
      .ok ⟨[], [rejection_entry (some "Alice@example.com")], []⟩ :=
  ⟨by decide,
    (sender_check_case_sensitive cfg9 dec0 http200 msg9 "Alice@example.com" rfl (by decide)).2⟩

/-! ### Claim C3: the missing-subject placeholder crashes the decoder -/

def cfg3 : Config :=
  ⟨[("known@example.com", "https://example.com/webhook")], ["sender@example.com"]⟩

def msg3 : Msg :=
  ⟨some "sender@example.com", .str "known@example.com", none,
    "text/plain", none, .single [104, 105]⟩

/-- C3 (code bug): for a message from an authorized sender with no
subject header the code substitutes the literal `No subject`, but
`decode_header` hands that literal back as a `str` chunk and
`str(chunk, charset)` raises `TypeError`, so the decoder raises instead
of returning the placeholder, and the whole task fails. -/
theorem missing_subject_crash :
    msg3.subject = none ∧
    is_authorized cfg3 msg3.mailfrom = true ∧
    decoded_subject dec0 msg3 = .error .typeError ∧
    async_handle_message cfg3 dec0 http200 msg3 = .error .typeError :=
  ⟨rfl, rfl, rfl, rfl⟩

/-! ### Claim C2: failures escape the task body -/

def cfg2 : Config :=
  ⟨[("known@example.com", "https://example.com/webhook")], ["sender@example.com"]⟩

def msg2 : Msg :=
  ⟨some "sender@example.com", .str "known@example.com", some (.plain "Hello"),
    "text/plain", none, .single [104, 105]⟩

/-- Counterexample to C2: a concrete authorized message whose subject
header holds no RFC 2047 encoded words makes the task body raise
`TypeError`; the failure is not caught inside the task and no log entry
is produced, so the task body does return an error for some input. -/
theorem task_failure_counterexample :
    async_handle_message cfg2 dec0 http200 msg2 = .error .typeError := rfl

/-- C2 as amended: the task body is not failure-free.  It raises exactly
when the sender is authorized and at least one of these holds: decoding
the subject raises, extracting the content raises, or the `To` header is
absent, in which case iterating the `None` recipients at line 139 raises
`TypeError` even though both decode steps succeeded.  No such failure is
caught inside the task body or turned into a known-log or unknown-log
entry by the handler. -/
theorem task_failure_iff (cfg : Config) (dec : CharsetDec) (http : HttpOracle)
    (m : Msg) :
    isErr (async_handle_message cfg dec http m) =
      (is_authorized cfg m.mailfrom &&
        (isErr (decoded_subject dec m) || isErr (extract_content dec m) ||
          (normalizeTo m.toHeader).isNone)) := by
  unfold async_handle_message
  dsimp only
  cases ha : is_authorized cfg m.mailfrom with
  | false =>
    simp [isErr]
  | true =>
    rw [if_neg (by simp)]
    cases hs : decoded_subject dec m with
    | error e => simp [isErr]
    | ok subj =>
      cases hc : extract_content dec m with
      | error e => simp [isErr]
      | ok content =>
        cases ht : normalizeTo m.toHeader with
        | none => simp [isErr]
        | some rcpttos =>
          by_cases hk : is_known_recipient cfg.EMAIL_ENDPOINTS rcpttos = true
          · simp [isErr, hk]
          · simp [isErr, hk]

/-! ### Claim C1: case-insensitive recipient matching -/

def cfg1 : Config :=
  ⟨[("Known@Example.com", "https://example.com/webhook")], ["sender@example.com"]⟩

def msg1 : Msg :=
  ⟨some "sender@example.com", .str "known@example.com", some (.encoded [([72, 105], none)]),
    "text/plain", none, .single [104, 105]⟩

/-- Counterexample to C1: with the mapping keyed `Known@Example.com`,
the incoming recipient `known@example.com` is classified known (lines
139 to 140 lower both sides), yet the selection test of line 146 and the
resolution of line 159 lower only the recipient and find nothing, so the
message is logged as known but no forward occurs and no endpoint
resolves — matching is not case-insensitive everywhere it occurs. -/
theorem recipient_case_counterexample :
    is_known_recipient [("Known@Example.com", "https://example.com/webhook")]
      ["known@example.com"] = true ∧
    dictContains [("Known@Example.com", "https://example.com/webhook")]
      (pyLower "known@example.com") = false ∧
    dictGet [("Known@Example.com", "https://example.com/webhook")]
      (pyLower "known@example.com") = none ∧
    async_handle_message cfg1 dec0 http200 msg1 =
      .ok ⟨["From: sender@example.com, To: known@example.com, Subject: Hi, Size: 2 bytes"],
        [], []⟩ :=
  ⟨by decide, by decide, by decide, rfl⟩

/-- C1 as amended: classification is case-insensitive on both sides,
while selection and endpoint resolution compare the lower-cased
recipient against the literal mapping keys; hence whenever the mapping
key is itself all lower-case, a recipient equal to it under
case-insensitive comparison is classified known, selected for
forwarding, and resolved to that entry, all three. -/
theorem recipient_matching_amended (eps : List (String × String)) (r key url : String)
    (hget : dictGet eps key = some url)
    (hci : pyLower r = key) :
    is_known_recipient eps [r] = true ∧
    dictContains eps (pyLower r) = true ∧
    dictGet eps (pyLower r) = some url := by
  have h2 : dictGet eps (pyLower r) = some url := by
    rw [hci]
    exact hget
  exact ⟨is_known_of_dictGet eps r url [r] (List.mem_singleton_self r) h2,
    dictGet_some_contains eps (pyLower r) url h2, h2⟩

/-- Witness for the amended C1: a lower-case mapping key matched by an
upper-case variant of the recipient. -/
theorem recipient_matching_amended_witness :
    is_known_recipient [("known@example.com", "https://example.com/webhook")]
      ["KNOWN@Example.COM"] = true ∧
    dictContains [("known@example.com", "https://example.com/webhook")]
      (pyLower "KNOWN@Example.COM") = true ∧
    dictGet [("known@example.com", "https://example.com/webhook")]
      (pyLower "KNOWN@Example.COM") = some "https://example.com/webhook" :=
  recipient_matching_amended [("known@example.com", "https://example.com/webhook")]
    "KNOWN@Example.COM" "known@example.com" "https://example.com/webhook"
    (by decide) (by decide)

/-! ### Claim C6: multipart content extraction -/

/-- C6: on a multipart message the extractor returns the decoded
payload of the first part in original order whose declared content type
is text/plain or text/html, decoding with that part wrt its declared
charset or the UTF-8 default, ignoring every later part; when no part
has either type the content is the empty string and no error is raised.
The hypotheses on `m.ctype` record the invariant of the email object
model that a multipart message has a `multipart` top-level content type,
so the walk item for the message itself never matches. -/
theorem content_first_match (dec : CharsetDec) (m : Msg) (parts : List BodyPart)
    (hm : m.body = .multi parts)
    (h1 : m.ctype ≠ "text/plain") (h2 : m.ctype ≠ "text/html") :
    extract_content dec m =
      match parts.find? (fun p => isTextItem p.ctype) with
      | some p => dec (p.charset.getD "utf-8") p.payload
      | none => .ok "" := by
  unfold extract_content
  rw [hm]
  dsimp only
  unfold msg_walk
  rw [List.find?_cons_of_neg _ (by simp [isTextItem, h1, h2]), List.find?_map]
  simp only [Function.comp_def]
  cases hf : parts.find? (fun p => isTextItem p.ctype) with
  | none => rfl
  | some p => rfl

def msg6 : Msg :=
  ⟨some "sender@example.com", .str "known@example.com", some (.encoded [([72, 105], none)]),
    "multipart/alternative", none,
    .multi [⟨"text/html", none, [60, 98, 62, 104, 105, 60, 47, 98, 62]⟩,
            ⟨"text/plain", none, [104, 105]⟩]⟩

/-- Witness for C6: parts `[text/html, text/plain]` in that order; the
first match wins by position, so the extracted content is the decoded
HTML payload. -/
theorem content_first_match_witness :
    (extract_content dec0 msg6 =
      match
        [(⟨"text/html", none, [60, 98, 62, 104, 105, 60, 47, 98, 62]⟩ : BodyPart),
          ⟨"text/plain", none, [104, 105]⟩].find? (fun p => isTextItem p.ctype) with
      | some p => dec0 (p.charset.getD "utf-8") p.payload
      | none => .ok "") ∧
    extract_content dec0 msg6 = .ok "<b>hi</b>" :=
  ⟨content_first_match dec0 msg6 _ rfl (by decide) (by decide), rfl⟩

/-! ### Forward attempt helper -/

theorem forward_to_webhook_eq (eps : List (String × String)) (http : HttpOracle)
    (r subj content url : String)
    (hget : dictGet eps (pyLower r) = some url) (hurl : url ≠ "") :
    forward_to_webhook eps http r subj content =
      ((match http url (forward_payload r subj content) with
        | .success code => ["Forwarded to " ++ url ++ ": " ++ toString code]
        | .failure e => ["Error sending to " ++ url ++ ": " ++ e]),
       [⟨url, forward_payload r subj content⟩]) := by
  unfold forward_to_webhook
  dsimp only
  rw [hget]
  dsimp only
  rw [if_neg (by simp [hurl])]
  cases http url (forward_payload r subj content) <;> rfl

/-! ### Claim C7: transport failures are logged once and contained -/

/-- C7: when the HTTP call for a resolved forward attempt raises a
transport error, exactly one error line is appended to the known log,
the call is attempted exactly once (no retry), and the failure does not
propagate: the forwarding loop continues with the remaining recipients
exactly as it would have. -/
theorem forward_failure_contained (eps : List (String × String)) (http : HttpOracle)
    (r subj content endpoint e : String) (rs : List String)
    (hget : dictGet eps (pyLower r) = some endpoint)
    (hurl : endpoint ≠ "")
    (hfail : http endpoint (forward_payload r subj content) = .failure e) :
    forward_to_webhook eps http r subj content =
      (["Error sending to " ++ endpoint ++ ": " ++ e],
        [⟨endpoint, forward_payload r subj content⟩]) ∧
    forward_loop eps http subj content (r :: rs) =
      (("Error sending to " ++ endpoint ++ ": " ++ e)
          :: (forward_loop eps http subj content rs).1,
        (⟨endpoint, forward_payload r subj content⟩ : Post)
          :: (forward_loop eps http subj content rs).2) := by
  have hfwd := forward_to_webhook_eq eps http r subj content endpoint hget hurl
  rw [hfail] at hfwd
  refine ⟨hfwd, ?_⟩
  have hcont : dictContains eps (pyLower r) = true :=
    dictGet_some_contains eps (pyLower r) endpoint hget
  simp [forward_loop, hcont, hfwd]

def msg7eps : List (String × String) := [("known@example.com", "https://example.com/webhook")]

/-- Witness for C7 with an always-failing HTTP client and one further
recipient in the loop. -/
theorem forward_failure_contained_witness :
    forward_to_webhook msg7eps httpFail "known@example.com" "Hi" "hi" =
      (["Error sending to https://example.com/webhook: connection refused"],
        [⟨"https://example.com/webhook", forward_payload "known@example.com" "Hi" "hi"⟩]) ∧
    forward_loop msg7eps httpFail "Hi" "hi" ["known@example.com", "other@example.com"] =
      ("Error sending to https://example.com/webhook: connection refused"
          :: (forward_loop msg7eps httpFail "Hi" "hi" ["other@example.com"]).1,
        (⟨"https://example.com/webhook", forward_payload "known@example.com" "Hi" "hi"⟩ : Post)
          :: (forward_loop msg7eps httpFail "Hi" "hi" ["other@example.com"]).2) :=
  forward_failure_contained msg7eps httpFail "known@example.com" "Hi" "hi"
    "https://example.com/webhook" "connection refused" ["other@example.com"]
    (by decide) (by decide) rfl

/-! ### Claim C8: outbound request shape -/

/-- C8: every issued forward is a single POST to the URL mapped for the
lowered recipient, and its JSON body has exactly the fields `from`,
`subject` and `content`, in that order, with `from` holding the matching
recipient address (so looking up `from` yields the recipient, not the
envelope sender). -/
theorem forward_request_shape (eps : List (String × String)) (http : HttpOracle)
    (r subj content endpoint : String)
    (hget : dictGet eps (pyLower r) = some endpoint)
    (hurl : endpoint ≠ "") :
    (forward_to_webhook eps http r subj content).2 =
      [⟨endpoint, [("from", r), ("subject", subj), ("content", content)]⟩] ∧
    List.lookup "from" (forward_payload r subj content) = some r := by
  have hfwd := forward_to_webhook_eq eps http r subj content endpoint hget hurl
  rw [hfwd]
  exact ⟨rfl, rfl⟩

/-- Witness for C8 at a concrete recipient and mapping. -/
theorem forward_request_shape_witness :
    (forward_to_webhook [("known@example.com", "https://example.com/webhook")] http200
        "Known@example.com" "Hi" "hi").2 =
      [⟨"https://example.com/webhook",
        [("from", "Known@example.com"), ("subject", "Hi"), ("content", "hi")]⟩] ∧
    List.lookup "from" (forward_payload "Known@example.com" "Hi" "hi") =
      some "Known@example.com" :=
  forward_request_shape [("known@example.com", "https://example.com/webhook")] http200
    "Known@example.com" "Hi" "hi" "https://example.com/webhook" (by decide) (by decide)

/-! ### Claim C10: empty-string endpoint -/

/-- C10: a matching recipient whose mapped endpoint value is the empty
string leaves the forward attempt without observable effect — the empty
string is falsy at line 160, so no HTTP request is issued and no line is
appended to either log for that recipient — while the message itself is
still classified known and logged exactly once to the known log. -/
theorem empty_endpoint_noop (cfg : Config) (dec : CharsetDec) (http : HttpOracle)
    (m : Msg) (r subj content : String)
    (hauth : is_authorized cfg m.mailfrom = true)
    (hto : m.toHeader = .str r)
    (hs : decoded_subject dec m = .ok subj)
    (hc : extract_content dec m = .ok content)
    (hget : dictGet cfg.EMAIL_ENDPOINTS (pyLower r) = some "") :
    forward_to_webhook cfg.EMAIL_ENDPOINTS http r subj content = ([], []) ∧
    async_handle_message cfg dec http m =
      .ok ⟨[log_entry_of m.mailfrom [r] subj content], [], []⟩ := by
  have hfwd : forward_to_webhook cfg.EMAIL_ENDPOINTS http r subj content = ([], []) := by
    unfold forward_to_webhook
    dsimp only
    rw [hget]
    rfl
  have hknown : is_known_recipient cfg.EMAIL_ENDPOINTS [r] = true :=
    is_known_of_dictGet cfg.EMAIL_ENDPOINTS r "" [r] (List.mem_singleton_self r) hget
  have hcont : dictContains cfg.EMAIL_ENDPOINTS (pyLower r) = true :=
    dictGet_some_contains cfg.EMAIL_ENDPOINTS (pyLower r) "" hget
  refine ⟨hfwd, ?_⟩
  unfold async_handle_message
  dsimp only
  rw [if_neg (by simp [hauth]), hto]
  rw [hs]
  dsimp only
  rw [hc]
  dsimp only [normalizeTo]
  rw [if_pos hknown]
  simp [forward_loop, hcont, hfwd]

def cfg10 : Config := ⟨[("known@example.com", "")], ["sender@example.com"]⟩

def msg10 : Msg :=
  ⟨some "sender@example.com", .str "known@example.com", some (.encoded [([72, 105], none)]),
    "text/plain", none, .single [104, 105]⟩

/-- Witness for C10: a mapping whose only entry carries the empty URL. -/
theorem empty_endpoint_noop_witness :
    forward_to_webhook cfg10.EMAIL_ENDPOINTS http200 "known@example.com" "Hi" "hi" = ([], []) ∧
    async_handle_message cfg10 dec0 http200 msg10 =
      .ok ⟨[log_entry_of msg10.mailfrom ["known@example.com"] "Hi" "hi"], [], []⟩ :=
  empty_endpoint_noop cfg10 dec0 http200 msg10 "known@example.com" "Hi" "hi"
    (by decide) rfl rfl rfl (by decide)

/-! ### Claim C4: one known and one unknown recipient -/

def cfg4 : Config :=
  ⟨[("known@example.com", "https://example.com/webhook")], ["sender@example.com"]⟩

def msg4 : Msg :=
  ⟨some "sender@example.com", .list ["known@example.com", "other@example.com"],
    some (.encoded [([72, 105], none)]), "text/plain", none, .single [104, 105]⟩

/-- Counterexample to C4: in the very scenario the claim describes (two
recipients, exactly one matching, successful delivery) the known log
receives two entries — the routing entry of line 144 and the forward
outcome entry of line 164 — so it is not the case that exactly one entry
is written to the known sink. -/
theorem two_recipients_counterexample :
    async_handle_message cfg4 dec0 http200 msg4 =
      .ok ⟨["From: sender@example.com, To: known@example.com, other@example.com, Subject: Hi, Size: 2 bytes",
            "Forwarded to https://example.com/webhook: 200"],
        [],
        [⟨"https://example.com/webhook",
          [("from", "known@example.com"), ("subject", "Hi"), ("content", "hi")]⟩]⟩ := rfl

/-- C4 as amended: for an authorized message with recipients `[r1, r2]`
where `r1` (lowered) is literally a mapping key with a non-empty URL and
`r2` matches nothing, and both decode steps succeed, exactly one forward
occurs and it targets the URL mapped for `r1`; nothing is written to the
unknown log; the known log receives the single routing entry followed by
the single outcome entry of that one forward attempt; `r2` is neither
forwarded nor separately logged. -/
theorem two_recipients_amended (cfg : Config) (dec : CharsetDec) (http : HttpOracle)
    (m : Msg) (r1 r2 subj content url : String)
    (hauth : is_authorized cfg m.mailfrom = true)
    (hto : m.toHeader = .list [r1, r2])
    (hs : decoded_subject dec m = .ok subj)
    (hc : extract_content dec m = .ok content)
    (hget : dictGet cfg.EMAIL_ENDPOINTS (pyLower r1) = some url)
    (hurl : url ≠ "")
    (hn2 : dictContains cfg.EMAIL_ENDPOINTS (pyLower r2) = false) :
    async_handle_message cfg dec http m =
      .ok ⟨log_entry_of m.mailfrom [r1, r2] subj content
            :: (forward_to_webhook cfg.EMAIL_ENDPOINTS http r1 subj content).1,
        [], [⟨url, forward_payload r1 subj content⟩]⟩ ∧
    (forward_to_webhook cfg.EMAIL_ENDPOINTS http r1 subj content).1.length = 1 := by
  have hfwd := forward_to_webhook_eq cfg.EMAIL_ENDPOINTS http r1 subj content url hget hurl
  have hcont1 : dictContains cfg.EMAIL_ENDPOINTS (pyLower r1) = true :=
    dictGet_some_contains cfg.EMAIL_ENDPOINTS (pyLower r1) url hget
  have hlen : (forward_to_webhook cfg.EMAIL_ENDPOINTS http r1 subj content).1.length = 1 := by
    rw [hfwd]
    cases http url (forward_payload r1 subj content) <;> rfl
  have hknown : is_known_recipient cfg.EMAIL_ENDPOINTS [r1, r2] = true :=
    is_known_of_dictGet cfg.EMAIL_ENDPOINTS r1 url [r1, r2] (List.mem_cons_self r1 [r2]) hget
  refine ⟨?_, hlen⟩
  unfold async_handle_message
  dsimp only
  rw [if_neg (by simp [hauth]), hto]
  rw [hs]
  dsimp only
  rw [hc]
  dsimp only [normalizeTo]
  rw [if_pos hknown]
  have hloop : forward_loop cfg.EMAIL_ENDPOINTS http subj content [r1, r2] =
      forward_to_webhook cfg.EMAIL_ENDPOINTS http r1 subj content := by
    simp [forward_loop, hcont1, hn2]
  rw [hloop, hfwd]

/-- Witness for the amended C4 at the concrete two-recipient message. -/
theorem two_recipients_amended_witness :
    async_handle_message cfg4 dec0 http200 msg4 =
      .ok ⟨log_entry_of msg4.mailfrom ["known@example.com", "other@example.com"] "Hi" "hi"
            :: (forward_to_webhook cfg4.EMAIL_ENDPOINTS http200 "known@example.com" "Hi" "hi").1,
        [],
        [⟨"https://example.com/webhook", forward_payload "known@example.com" "Hi" "hi"⟩]⟩ ∧
    (forward_to_webhook cfg4.EMAIL_ENDPOINTS http200 "known@example.com" "Hi" "hi").1.length = 1 :=
  two_recipients_amended cfg4 dec0 http200 msg4 "known@example.com" "other@example.com"
    "Hi" "hi" "https://example.com/webhook"
    (by decide) rfl rfl rfl (by decide) (by decide) (by decide)
